import Mathlib

/-!
# GraphBasedServer: the authenticated-handler wrapper

A shallow embedding of `authorizedWork.go`: the response record and its two
constructors, the identity extractor `GetUserQueryCredentials`, and the handler
built by `NewAuthProtectedHandle`.

The handler is sequential code with effects on three things: the response
writer `w`, the process log, and the collaborators it calls (the token library,
the form parser, the work function).  A run of the handler is embedded as the
list of those effects in program order (`Event`), together with the panic that
ended the run, if any, and the state the response writer is left in.  The
response writer is the one net/http hands a handler (`ResponseWriter`): its
`WriteHeader` panics on a code outside 100..999 and sends a 1xx code other
than 101 as an informational response, its `Write` sends the header with 200
first when none is sent and refuses a body under a 1xx, 204 or 304 status, and
`Encode` writes nothing when the value cannot be marshalled.

The collaborators that live outside the file (the key set, `jwt.ParseRequest`,
`jwt.Validate`, `jwt.ErrTokenExpired`, `r.ParseForm`, `GetNewToken`,
`http.StatusText`) are the fields of `Env`; every theorem holds for every
`Env`.  The collaborators and the work function are taken to return; the panics
of a run are the explicit `panic` and the type assertions of
`GetUserQueryCredentials`, and the panic of `WriteHeader` on a code it rejects.
-/

namespace GraphBasedServer

/-! ## Go values -/

/-- A Go `error` value: `ident` tells error values apart the way `==` on the
interface does, `msg` is what its `Error()` method returns. -/
structure GoError where
  ident : Nat
  msg : String
deriving DecidableEq, Repr

/-- A value held in an `interface{}`: `nil`, or a value of some dynamic type.
Token claims and the `NewToken` field have this type in the source.
`composite` is a map or slice of JSON values; `channel` stands for the values
of the types encoding/json cannot marshal (a channel, a function). -/
inductive GoValue where
  | nil
  | bool (b : Bool)
  | number (n : Int)
  | str (s : String)
  | composite (json : String)
  | channel
deriving DecidableEq, Repr

/-- What a Go `panic` carries: the argument of an explicit `panic(...)`, the
runtime error of a failed type assertion `v.(string)`, or the
"invalid WriteHeader code" panic of net/http with the code it rejects. -/
inductive PanicValue where
  | message (s : String)
  | typeAssertion (v : GoValue)
  | invalidWriteHeaderCode (code : Int)
deriving DecidableEq, Repr

/-- The outcome of Go code that may panic. -/
inductive GoResult (α : Type) where
  | ok (a : α)
  | panic (p : PanicValue)
deriving DecidableEq, Repr

/-- The type assertion `v.(string)`: the string when the dynamic type is
`string`, a runtime panic otherwise (the `nil` interface included). -/
def GoValue.assertString : GoValue → GoResult String
  | GoValue.str s => GoResult.ok s
  | v => GoResult.panic (PanicValue.typeAssertion v)

/-! ## Tokens, requests, keys -/

/-- A `jwt.Token`, as far as this file reads it: its claims by name. -/
structure Token where
  claims : List (String × GoValue)
deriving DecidableEq, Repr

/-- The method `Get(name) (interface{}, bool)` of `jwt.Token`: the claim and
`true`, or `nil` and `false` when the token has no such claim. -/
def Token.Get (tkn : Token) (name : String) : GoValue × Bool :=
  match tkn.claims.lookup name with
  | some v => (v, true)
  | none => (GoValue.nil, false)

/-- An `http.Request`, as far as the collaborators of this file read it: the
header lines, the raw query, the body, and the form `ParseForm` fills in. -/
structure Request where
  header : List (String × String)
  rawQuery : String
  body : String
  form : List (String × String)
deriving DecidableEq, Repr

/-- The route parameters `httprouter.Params`. -/
abbrev Params := List (String × String)

/-- A verification key of the process-wide key set (`jwk.Key`). -/
structure Key where
  kid : String
deriving DecidableEq, Repr

/-- The constant `jwa.RS512`. -/
def RS512 : String := "RS512"

/-- The constant `http.StatusOK`. -/
def StatusOK : Int := 200

/-- The constant `http.StatusUnauthorized`. -/
def StatusUnauthorized : Int := 401

/-- The constant `http.StatusInternalServerError`. -/
def StatusInternalServerError : Int := 500

/-! ## The response record and its constructors -/

/-- The struct `AuthProtectedHandleResponse`, field for field. -/
structure AuthProtectedHandleResponse where
  IsError : Bool
  TokenValid : Bool
  TokenExpired : Bool
  NewToken : GoValue
  HttpStatusCode : Int
  HttpStatusMessage : String
  Reason : String
  UserFriendlyMessage : String
deriving DecidableEq, Repr

/-- The collaborators of the file that are defined outside it.
* `pubSet`: the key set behind the global `_pubSet`;
* `ParseRequest r alg key`: `jwt.ParseRequest(r, jwt.WithVerify(alg, key))`,
  where `key` is `none` when the key set has no first key;
* `Validate tkn`: `jwt.Validate(tkn)`, `none` for a `nil` error;
* `ErrTokenExpired`: the value `jwt.ErrTokenExpired()` returns;
* `ParseForm r`: `r.ParseForm()`, the request as it leaves the call and the error;
* `GetNewToken tkn`: the token refresher, its bytes read as a string;
* `StatusText`: `http.StatusText`. -/
structure Env where
  pubSet : List Key
  ParseRequest : Request → String → Option Key → Except GoError Token
  Validate : Token → Option GoError
  ErrTokenExpired : GoError
  ParseForm : Request → Request × Option GoError
  GetNewToken : Token → Except GoError String
  StatusText : Int → String

/-- The function `NewAuthProtectedHandleErrorResponse`. -/
def NewAuthProtectedHandleErrorResponse (env : Env) (tokenValid : Bool) (tokenExpired : Bool)
    (httpStatusCode : Int) (reason : String) (userMessage : String) : AuthProtectedHandleResponse :=
  { IsError := true
    TokenValid := tokenValid
    TokenExpired := tokenExpired
    NewToken := GoValue.nil
    HttpStatusCode := httpStatusCode
    HttpStatusMessage := env.StatusText httpStatusCode
    Reason := reason
    UserFriendlyMessage := userMessage }

/-- The function `NewAuthProtectedHandleSuccessResponse`; `data` is an
`interface{}` of any dynamic type. -/
def NewAuthProtectedHandleSuccessResponse {α : Type} (env : Env) (_data : α) (tkn : Token)
    (userMessage : String) : AuthProtectedHandleResponse :=
  match env.GetNewToken tkn with
  | Except.error err =>
    NewAuthProtectedHandleErrorResponse env true true StatusInternalServerError err.msg
      "Failed to maintain your session. Please contact us directly to resolve this issue."
  | Except.ok newTkn =>
    { IsError := false
      TokenValid := true
      TokenExpired := false
      NewToken := GoValue.str newTkn
      HttpStatusCode := StatusOK
      HttpStatusMessage := env.StatusText StatusOK
      Reason := ""
      UserFriendlyMessage := userMessage }

/-- The method `Error()` of the response: `log.Println(e.Reason)` appends one
line to the log, and the user-friendly message is returned. -/
def AuthProtectedHandleResponse.Error (e : AuthProtectedHandleResponse) (log : List String) :
    String × List String :=
  (e.UserFriendlyMessage, log ++ [e.Reason ++ "\n"])

/-! ## The identity extractor -/

/-- The struct `UserQueryCredentials`. -/
structure UserQueryCredentials where
  queryByKey : String
  queryByValue : String
deriving DecidableEq, Repr

/-- The function `GetUserQueryCredentials`.  `phone != ""` compares an
`interface{}` with a string: it is false only for the string `""` itself. -/
def GetUserQueryCredentials (tkn : Token) : GoResult UserQueryCredentials :=
  let phone := (tkn.Get "phone").1
  let phoneExists := phone != GoValue.nil && phone != GoValue.str ""
  let email := (tkn.Get "email").1
  let emailExists := email != GoValue.nil && email != GoValue.str ""
  if phoneExists then
    match phone.assertString with
    | GoResult.ok s => GoResult.ok { queryByKey := "phone", queryByValue := s }
    | GoResult.panic pv => GoResult.panic pv
  else if emailExists then
    match email.assertString with
    | GoResult.ok s => GoResult.ok { queryByKey := "email", queryByValue := s }
    | GoResult.panic pv => GoResult.panic pv
  else
    GoResult.panic (PanicValue.message
      "Shouldn't be here! Neither phone nor email is available for querying the database in behalf of this user!")

/-! ## The response writer -/

/-- The state of the `http.ResponseWriter` net/http hands a handler:
* `header`: the header map;
* `informational`: the 1xx status lines sent ahead of the response header;
* `status`: the status code of the response header, `none` until it is sent
  (the server sends it with 200 itself when the handler returns without);
* `body`: the JSON documents `Write` accepted, each standing for its encoding.
What the server does with an accepted document below `Write` (it drops the
bytes when the request is a HEAD request) is not part of this state. -/
structure ResponseWriter where
  header : List (String × String)
  informational : List Int
  status : Option Int
  body : List AuthProtectedHandleResponse
deriving DecidableEq, Repr

/-- The writer a request starts with. -/
def ResponseWriter.fresh : ResponseWriter :=
  { header := [], informational := [], status := none, body := [] }

/-- The call `w.Header().Set(key, value)`; it changes nothing that is sent once
the header is out. -/
def ResponseWriter.SetHeader (w : ResponseWriter) (key : String) (value : String) :
    ResponseWriter :=
  match w.status with
  | none => { w with header := (key, value) :: w.header.filter (fun kv => kv.1 != key) }
  | some _ => w

/-- The check `checkWriteHeaderCode` of net/http: a code below 100 or above 999
panics. -/
def checkWriteHeaderCode (code : Int) : GoResult Unit :=
  if code < 100 ∨ code > 999 then GoResult.panic (PanicValue.invalidWriteHeaderCode code)
  else GoResult.ok ()

/-- The method `WriteHeader(code)` of net/http: a call after the header is sent
is ignored (the server notes it as superfluous); otherwise the code is checked, a 1xx code other than 101 is sent as
an informational response and leaves the header unsent, and any other code is
sent as the status of the response header. -/
def ResponseWriter.WriteHeader (w : ResponseWriter) (code : Int) : GoResult ResponseWriter :=
  match w.status with
  | some _ => GoResult.ok w
  | none =>
    match checkWriteHeaderCode code with
    | GoResult.panic pv => GoResult.panic pv
    | GoResult.ok _ =>
      if 100 ≤ code ∧ code ≤ 199 ∧ code ≠ 101 then
        GoResult.ok { w with informational := w.informational ++ [code] }
      else
        GoResult.ok { w with status := some code }

/-- The function `bodyAllowedForStatus` of net/http: no body under a 1xx, 204
or 304 status. -/
def bodyAllowedForStatus (status : Int) : Bool :=
  if 100 ≤ status ∧ status ≤ 199 then false
  else if status = 204 then false
  else if status = 304 then false
  else true

/-- The method `Write` of net/http for a non-empty JSON document: the header
is sent with `http.StatusOK` first when it is not sent yet, and the document is
accepted unless the status sent allows no body. -/
def ResponseWriter.Write (w : ResponseWriter) (doc : AuthProtectedHandleResponse) :
    ResponseWriter :=
  let w1 : ResponseWriter :=
    match w.status with
    | none => { w with status := some StatusOK }
    | some _ => w
  if bodyAllowedForStatus (w1.status.getD StatusOK) then { w1 with body := w1.body ++ [doc] }
  else w1

/-- Whether encoding/json can marshal a value held in an `interface{}`. -/
def jsonMarshals : GoValue → Bool
  | GoValue.channel => false
  | _ => true

/-- The call `json.NewEncoder(w).Encode(resp)`, its error dropped as the
handler drops it: the response is marshalled first, and only when that
succeeds is the document written to `w`, in one `Write`.  Of the fields of the
response only `NewToken`, an `interface{}`, can fail to marshal. -/
def ResponseWriter.Encode (w : ResponseWriter) (resp : AuthProtectedHandleResponse) :
    ResponseWriter :=
  if jsonMarshals resp.NewToken then w.Write resp else w

/-! ## The handler -/

/-- The type `AuthProtectedHandleWork`. -/
abbrev AuthProtectedHandleWork :=
  Token → UserQueryCredentials → Request → Params → AuthProtectedHandleResponse

/-- One call a run of the handler makes, in the order the source makes them:
* `headerSet k v`: `w.Header().Set(k, v)`;
* `parseRequest r alg key`: the call of `jwt.ParseRequest` (gate 1, verify);
* `validate tkn`: the call of `jwt.Validate` (gate 2);
* `parseForm r`: the call of `r.ParseForm()` (gate 3);
* `getUserQueryCredentials tkn`: the call of `GetUserQueryCredentials` (gate 4, derive);
* `work tkn cred r p`: the call of the work function;
* `logPrintf line`: one `log.Printf`, `line` being the formatted text;
* `writeHeader code`: the call `w.WriteHeader(code)`;
* `encode resp`: the call `json.NewEncoder(w).Encode(resp)`. -/
inductive Event where
  | headerSet (key : String) (value : String)
  | parseRequest (r : Request) (alg : String) (key : Option Key)
  | validate (tkn : Token)
  | parseForm (r : Request)
  | getUserQueryCredentials (tkn : Token)
  | work (tkn : Token) (cred : UserQueryCredentials) (r : Request) (p : Params)
  | logPrintf (line : String)
  | writeHeader (code : Int)
  | encode (resp : AuthProtectedHandleResponse)
deriving DecidableEq, Repr

/-- A run of the handler: the calls it made in order, the response writer as
the run leaves it, and the panic that ended it (`none` when the handler
returned). -/
structure Run where
  trace : List Event
  writer : ResponseWriter
  panicked : Option PanicValue
deriving DecidableEq, Repr

/-- The two statements `w.WriteHeader(code)` and
`json.NewEncoder(w).Encode(resp)` in sequence, after the calls in `trace` and
on the writer `w`: a panic of `WriteHeader` ends the run before `Encode`. -/
def writeHeaderThenEncode (trace : List Event) (w : ResponseWriter) (code : Int)
    (resp : AuthProtectedHandleResponse) : Run :=
  match w.WriteHeader code with
  | GoResult.panic pv =>
    { trace := trace ++ [Event.writeHeader code], writer := w, panicked := some pv }
  | GoResult.ok w1 =>
    { trace := trace ++ [Event.writeHeader code, Event.encode resp]
      writer := w1.Encode resp
      panicked := none }

/-- The handler `NewAuthProtectedHandle(work)` run on request `r` with route
parameters `p` and a fresh response writer. -/
def NewAuthProtectedHandle (env : Env) (work : AuthProtectedHandleWork) (r : Request)
    (p : Params) : Run :=
  let w := ResponseWriter.fresh.SetHeader "Content-Type" "application/json"
  let pubKey := env.pubSet.head?
  let t1 := [Event.headerSet "Content-Type" "application/json", Event.parseRequest r RS512 pubKey]
  match env.ParseRequest r RS512 pubKey with
  | Except.error err =>
    writeHeaderThenEncode
      (t1 ++ [Event.logPrintf ("Token verification failed: " ++ err.msg ++ "\n")])
      w StatusUnauthorized
      (NewAuthProtectedHandleErrorResponse env false false StatusUnauthorized
        "Token failed verification with public key."
        "Authorisation failed. Your session could not be authenticated.")
  | Except.ok tkn =>
    let t2 := t1 ++ [Event.validate tkn]
    match env.Validate tkn with
    | some err =>
      writeHeaderThenEncode
        (t2 ++ [Event.logPrintf ("Token validation failed: " ++ err.msg ++ "\n")])
        w StatusUnauthorized
        (NewAuthProtectedHandleErrorResponse env false
          (decide (err = env.ErrTokenExpired)) StatusUnauthorized
          ("Token passed verification with public key BUT failed validation! " ++ err.msg)
          "Authorisation failed. Your session could not be authenticated.")
    | none =>
      let t3 := t2 ++ [Event.parseForm r]
      match env.ParseForm r with
      | (_, some err) =>
        writeHeaderThenEncode t3 w StatusInternalServerError
          (NewAuthProtectedHandleErrorResponse env true true
            StatusInternalServerError
            ("Failed to parse form parameters: " ++ err.msg)
            "Something went wrong while we were trying to fulfil your request. Please contact us directly to resolve this issue.")
      | (r1, none) =>
        let t4 := t3 ++ [Event.getUserQueryCredentials tkn]
        match GetUserQueryCredentials tkn with
        | GoResult.panic pv => { trace := t4, writer := w, panicked := some pv }
        | GoResult.ok cred =>
          let workResponse := work tkn cred r1 p
          let t5 := t4 ++ [Event.work tkn cred r1 p]
          if workResponse.IsError then
            writeHeaderThenEncode t5 w workResponse.HttpStatusCode workResponse
          else
            { trace := t5 ++ [Event.encode workResponse]
              writer := w.Encode workResponse
              panicked := none }

/-! ## What a run shows -/

/-- The calls on the response writer that send something, in order:
the `WriteHeader` calls and the `Encode` calls. -/
def Run.writerCalls (run : Run) : List Event :=
  run.trace.filter fun e =>
    match e with
    | Event.writeHeader _ => true
    | Event.encode _ => true
    | _ => false

/-- The status codes of the `WriteHeader` calls of a run, in order. -/
def Run.writeHeaderCalls (run : Run) : List Int :=
  run.trace.filterMap fun e =>
    match e with
    | Event.writeHeader code => some code
    | _ => none

/-- The JSON bodies a run writes, in order: the documents the response writer
accepted. -/
def Run.bodies (run : Run) : List AuthProtectedHandleResponse :=
  run.writer.body

/-- The lines a run appends to the log, in order. -/
def Run.logLines (run : Run) : List String :=
  run.trace.filterMap fun e =>
    match e with
    | Event.logPrintf line => some line
    | _ => none

/-- The invocations of the work function in a run, with their arguments. -/
def Run.workCalls (run : Run) : List (Token × UserQueryCredentials × Request × Params) :=
  run.trace.filterMap fun e =>
    match e with
    | Event.work tkn cred r p => some (tkn, cred, r, p)
    | _ => none

/-- The gates a run evaluates and its invocations of the work function, in order. -/
def Run.gateCalls (run : Run) : List Event :=
  run.trace.filter fun e =>
    match e with
    | Event.parseRequest _ _ _ => true
    | Event.validate _ => true
    | Event.parseForm _ => true
    | Event.getUserQueryCredentials _ => true
    | Event.work _ _ _ _ => true
    | _ => false

/-- Whether some `WriteHeader` call comes after an `Encode` call in a list of calls. -/
def writeHeaderAfterBody : List Event → Bool
  | [] => false
  | Event.encode _ :: rest =>
    rest.any (fun e => match e with
      | Event.writeHeader _ => true
      | _ => false) || writeHeaderAfterBody rest
  | _ :: rest => writeHeaderAfterBody rest

/-! ## The specification's vocabulary -/

/-- The string value of a non-empty claim, in the specification's sense: the
claim is present and its string value is not the empty string. -/
def nonEmptyClaim (tkn : Token) (name : String) : Option String :=
  match tkn.claims.lookup name with
  | some (GoValue.str s) => if s = "" then none else some s
  | _ => none

/-- The specification's phrase "a claim that is absent or empty", read on the
value `Get` returns: the `nil` interface or the empty string. -/
def absentOrEmpty (v : GoValue) : Prop :=
  v = GoValue.nil ∨ v = GoValue.str ""

/-- The invariants the specification states for a response: a success has a
valid, unexpired token, a refreshed token that is a string, and code 200; an
error has no new token; the status message is the status text of the code. -/
def ResponseInvariant (env : Env) (resp : AuthProtectedHandleResponse) : Prop :=
  (resp.IsError = false →
    resp.TokenValid = true ∧ resp.TokenExpired = false ∧ resp.NewToken ≠ GoValue.nil
      ∧ (∃ s, resp.NewToken = GoValue.str s) ∧ resp.HttpStatusCode = 200)
  ∧ (resp.IsError = true → resp.NewToken = GoValue.nil)
  ∧ resp.HttpStatusMessage = env.StatusText resp.HttpStatusCode

/-- A response built by one of the two constructors of the file. -/
def BuiltByConstructors (env : Env) (resp : AuthProtectedHandleResponse) : Prop :=
  (∃ (α : Type) (data : α) (tkn : Token) (userMessage : String),
      resp = NewAuthProtectedHandleSuccessResponse env data tkn userMessage)
  ∨ (∃ (tokenValid tokenExpired : Bool) (code : Int) (reason userMessage : String),
      resp = NewAuthProtectedHandleErrorResponse env tokenValid tokenExpired code reason userMessage)

/-! ## A concrete environment, for evaluating the definitions -/

/-- A sample token library: the bearer text names the token. -/
def sampleParseRequest (r : Request) (alg : String) (key : Option Key) : Except GoError Token :=
  if alg = "RS512" ∧ key = some { kid := "key-0" } then
    match r.header.lookup "Authorization" with
    | some "Bearer phone" => Except.ok { claims := [("phone", GoValue.str "+15550101")] }
    | some "Bearer email" =>
      Except.ok { claims := [("phone", GoValue.str ""), ("email", GoValue.str "a@b")] }
    | some "Bearer expired" => Except.ok { claims := [("exp", GoValue.number 0)] }
    | some "Bearer early" => Except.ok { claims := [("nbf", GoValue.number 99)] }
    | some "Bearer anonymous" => Except.ok { claims := [("sub", GoValue.str "nobody")] }
    | some "Bearer stale" =>
      Except.ok { claims := [("phone", GoValue.str "+15550102"), ("norefresh", GoValue.bool true)] }
    | some "Bearer numeric" =>
      Except.ok { claims := [("phone", GoValue.number 15550101), ("email", GoValue.str "a@b")] }
    | _ => Except.error { ident := 1, msg := "failed to find token in any location of the request" }
  else
    Except.error { ident := 2, msg := "failed to verify jws signature" }

/-- A sample environment. -/
def sampleEnv : Env where
  pubSet := [{ kid := "key-0" }, { kid := "key-1" }]
  ParseRequest := sampleParseRequest
  Validate := fun tkn =>
    if (tkn.Get "exp").1 = GoValue.number 0 then some { ident := 10, msg := "exp not satisfied" }
    else if (tkn.Get "nbf").1 = GoValue.number 99 then some { ident := 11, msg := "nbf not satisfied" }
    else none
  ErrTokenExpired := { ident := 10, msg := "exp not satisfied" }
  ParseForm := fun r =>
    if r.rawQuery = "a=%zz" then (r, some { ident := 20, msg := "invalid URL escape \"%zz\"" })
    else ({ r with form := [("raw", r.rawQuery)] }, none)
  GetNewToken := fun tkn =>
    if (tkn.Get "norefresh").1 = GoValue.bool true then
      Except.error { ident := 30, msg := "failed to sign token" }
    else Except.ok "fresh.jwt.token"
  StatusText := fun code =>
    if code = 200 then "OK"
    else if code = 401 then "Unauthorized"
    else if code = 500 then "Internal Server Error"
    else ""

/-- A sample request carrying the given bearer text and raw query. -/
def sampleRequest (bearer : String) (query : String) : Request :=
  { header := [("Authorization", bearer)], rawQuery := query, body := "", form := [] }

/-- A sample work function: it answers through the success constructor. -/
def sampleWork : AuthProtectedHandleWork :=
  fun tkn cred _ _ =>
    NewAuthProtectedHandleSuccessResponse sampleEnv () tkn ("Hello " ++ cred.queryByValue)

/-- A sample work function that answers through the error constructor with
the status code 0. -/
def sampleWorkCodeZero : AuthProtectedHandleWork :=
  fun _ _ _ _ =>
    NewAuthProtectedHandleErrorResponse sampleEnv true false 0 "no status chosen"
      "Please try again."

/-- A sample work function that answers through the error constructor with
the status code 103. -/
def sampleWorkEarlyHints : AuthProtectedHandleWork :=
  fun _ _ _ _ =>
    NewAuthProtectedHandleErrorResponse sampleEnv true false 103 "still working"
      "Please wait."

/-- A sample work function that answers with a success record whose NewToken
holds a channel. -/
def sampleWorkChannel : AuthProtectedHandleWork :=
  fun _ cred _ _ =>
    { IsError := false
      TokenValid := true
      TokenExpired := false
      NewToken := GoValue.channel
      HttpStatusCode := 200
      HttpStatusMessage := "OK"
      Reason := ""
      UserFriendlyMessage := "Hello " ++ cred.queryByValue }

/-! ## The ways a run can go -/

/-- The run when verification fails. -/
theorem run_of_verification_failure (env : Env) (work : AuthProtectedHandleWork) (r : Request)
    (p : Params) (err : GoError)
    (hv : env.ParseRequest r RS512 env.pubSet.head? = Except.error err) :
    NewAuthProtectedHandle env work r p =
      { trace :=
          [Event.headerSet "Content-Type" "application/json",
           Event.parseRequest r RS512 env.pubSet.head?,
           Event.logPrintf ("Token verification failed: " ++ err.msg ++ "\n"),
           Event.writeHeader 401,
           Event.encode (NewAuthProtectedHandleErrorResponse env false false 401
             "Token failed verification with public key."
             "Authorisation failed. Your session could not be authenticated.")]
        writer :=
          { header := [("Content-Type", "application/json")]
            informational := []
            status := some 401
            body := [NewAuthProtectedHandleErrorResponse env false false 401
              "Token failed verification with public key."
              "Authorisation failed. Your session could not be authenticated."] }
        panicked := none } := by
  simp [NewAuthProtectedHandle, hv, StatusUnauthorized, writeHeaderThenEncode,
    ResponseWriter.WriteHeader, checkWriteHeaderCode, ResponseWriter.Encode,
    ResponseWriter.Write, ResponseWriter.SetHeader, ResponseWriter.fresh, jsonMarshals,
    bodyAllowedForStatus, NewAuthProtectedHandleErrorResponse]

/-- The run when verification passes and validation fails. -/
theorem run_of_validation_failure (env : Env) (work : AuthProtectedHandleWork) (r : Request)
    (p : Params) (tkn : Token) (err : GoError)
    (hv : env.ParseRequest r RS512 env.pubSet.head? = Except.ok tkn)
    (he : env.Validate tkn = some err) :
    NewAuthProtectedHandle env work r p =
      { trace :=
          [Event.headerSet "Content-Type" "application/json",
           Event.parseRequest r RS512 env.pubSet.head?,
           Event.validate tkn,
           Event.logPrintf ("Token validation failed: " ++ err.msg ++ "\n"),
           Event.writeHeader 401,
           Event.encode (NewAuthProtectedHandleErrorResponse env false
             (decide (err = env.ErrTokenExpired)) 401
             ("Token passed verification with public key BUT failed validation! " ++ err.msg)
             "Authorisation failed. Your session could not be authenticated.")]
        writer :=
          { header := [("Content-Type", "application/json")]
            informational := []
            status := some 401
            body := [NewAuthProtectedHandleErrorResponse env false
              (decide (err = env.ErrTokenExpired)) 401
              ("Token passed verification with public key BUT failed validation! " ++ err.msg)
              "Authorisation failed. Your session could not be authenticated."] }
        panicked := none } := by
  simp [NewAuthProtectedHandle, hv, he, StatusUnauthorized, writeHeaderThenEncode,
    ResponseWriter.WriteHeader, checkWriteHeaderCode, ResponseWriter.Encode,
    ResponseWriter.Write, ResponseWriter.SetHeader, ResponseWriter.fresh, jsonMarshals,
    bodyAllowedForStatus, NewAuthProtectedHandleErrorResponse]

/-- The run when the token gates pass and form parsing fails. -/
theorem run_of_form_failure (env : Env) (work : AuthProtectedHandleWork) (r : Request)
    (p : Params) (tkn : Token) (r1 : Request) (err : GoError)
    (hv : env.ParseRequest r RS512 env.pubSet.head? = Except.ok tkn)
    (he : env.Validate tkn = none)
    (hf : env.ParseForm r = (r1, some err)) :
    NewAuthProtectedHandle env work r p =
      { trace :=
          [Event.headerSet "Content-Type" "application/json",
           Event.parseRequest r RS512 env.pubSet.head?,
           Event.validate tkn,
           Event.parseForm r,
           Event.writeHeader 500,
           Event.encode (NewAuthProtectedHandleErrorResponse env true true 500
             ("Failed to parse form parameters: " ++ err.msg)
             "Something went wrong while we were trying to fulfil your request. Please contact us directly to resolve this issue.")]
        writer :=
          { header := [("Content-Type", "application/json")]
            informational := []
            status := some 500
            body := [NewAuthProtectedHandleErrorResponse env true true 500
              ("Failed to parse form parameters: " ++ err.msg)
              "Something went wrong while we were trying to fulfil your request. Please contact us directly to resolve this issue."] }
        panicked := none } := by
  simp [NewAuthProtectedHandle, hv, he, hf, StatusInternalServerError, writeHeaderThenEncode,
    ResponseWriter.WriteHeader, checkWriteHeaderCode, ResponseWriter.Encode,
    ResponseWriter.Write, ResponseWriter.SetHeader, ResponseWriter.fresh, jsonMarshals,
    bodyAllowedForStatus, NewAuthProtectedHandleErrorResponse]

/-- The run when the first three gates pass and deriving the credential panics. -/
theorem run_of_derive_panic (env : Env) (work : AuthProtectedHandleWork) (r : Request)
    (p : Params) (tkn : Token) (r1 : Request) (pv : PanicValue)
    (hv : env.ParseRequest r RS512 env.pubSet.head? = Except.ok tkn)
    (he : env.Validate tkn = none)
    (hf : env.ParseForm r = (r1, none))
    (hc : GetUserQueryCredentials tkn = GoResult.panic pv) :
    NewAuthProtectedHandle env work r p =
      { trace :=
          [Event.headerSet "Content-Type" "application/json",
           Event.parseRequest r RS512 env.pubSet.head?,
           Event.validate tkn,
           Event.parseForm r,
           Event.getUserQueryCredentials tkn]
        writer :=
          { header := [("Content-Type", "application/json")]
            informational := []
            status := none
            body := [] }
        panicked := some pv } := by
  simp [NewAuthProtectedHandle, hv, he, hf, hc, ResponseWriter.SetHeader, ResponseWriter.fresh]

/-- The run when all four gates pass and the work response is not an error:
one Encode call, and the document is written under 200 when it marshals. -/
theorem run_of_work_success (env : Env) (work : AuthProtectedHandleWork) (r : Request)
    (p : Params) (tkn : Token) (r1 : Request) (cred : UserQueryCredentials)
    (hv : env.ParseRequest r RS512 env.pubSet.head? = Except.ok tkn)
    (he : env.Validate tkn = none)
    (hf : env.ParseForm r = (r1, none))
    (hc : GetUserQueryCredentials tkn = GoResult.ok cred)
    (hw : (work tkn cred r1 p).IsError = false) :
    NewAuthProtectedHandle env work r p =
      { trace :=
          [Event.headerSet "Content-Type" "application/json",
           Event.parseRequest r RS512 env.pubSet.head?,
           Event.validate tkn,
           Event.parseForm r,
           Event.getUserQueryCredentials tkn,
           Event.work tkn cred r1 p,
           Event.encode (work tkn cred r1 p)]
        writer :=
          { header := [("Content-Type", "application/json")]
            informational := []
            status := if jsonMarshals (work tkn cred r1 p).NewToken = true then some 200 else none
            body := if jsonMarshals (work tkn cred r1 p).NewToken = true
              then [work tkn cred r1 p] else [] }
        panicked := none } := by
  by_cases hm : jsonMarshals (work tkn cred r1 p).NewToken = true <;>
    simp [NewAuthProtectedHandle, hv, he, hf, hc, hw, hm, ResponseWriter.Encode,
      ResponseWriter.Write, ResponseWriter.SetHeader, ResponseWriter.fresh,
      bodyAllowedForStatus, StatusOK]

/-- The run when all four gates pass and the work response is an error whose
code WriteHeader rejects: the run panics in WriteHeader, before Encode. -/
theorem run_of_work_error_rejected (env : Env) (work : AuthProtectedHandleWork) (r : Request)
    (p : Params) (tkn : Token) (r1 : Request) (cred : UserQueryCredentials)
    (hv : env.ParseRequest r RS512 env.pubSet.head? = Except.ok tkn)
    (he : env.Validate tkn = none)
    (hf : env.ParseForm r = (r1, none))
    (hc : GetUserQueryCredentials tkn = GoResult.ok cred)
    (hw : (work tkn cred r1 p).IsError = true)
    (hcode : (work tkn cred r1 p).HttpStatusCode < 100 ∨ (work tkn cred r1 p).HttpStatusCode > 999) :
    NewAuthProtectedHandle env work r p =
      { trace :=
          [Event.headerSet "Content-Type" "application/json",
           Event.parseRequest r RS512 env.pubSet.head?,
           Event.validate tkn,
           Event.parseForm r,
           Event.getUserQueryCredentials tkn,
           Event.work tkn cred r1 p,
           Event.writeHeader (work tkn cred r1 p).HttpStatusCode]
        writer :=
          { header := [("Content-Type", "application/json")]
            informational := []
            status := none
            body := [] }
        panicked := some (PanicValue.invalidWriteHeaderCode (work tkn cred r1 p).HttpStatusCode) } := by
  simp [NewAuthProtectedHandle, hv, he, hf, hc, hw, hcode, writeHeaderThenEncode,
    ResponseWriter.WriteHeader, checkWriteHeaderCode, ResponseWriter.SetHeader,
    ResponseWriter.fresh]

/-- The run when all four gates pass and the work response is an error with an
informational code (1xx other than 101): the code goes out as an informational
response, and the document is written under 200 when it marshals. -/
theorem run_of_work_error_informational (env : Env) (work : AuthProtectedHandleWork)
    (r : Request) (p : Params) (tkn : Token) (r1 : Request) (cred : UserQueryCredentials)
    (hv : env.ParseRequest r RS512 env.pubSet.head? = Except.ok tkn)
    (he : env.Validate tkn = none)
    (hf : env.ParseForm r = (r1, none))
    (hc : GetUserQueryCredentials tkn = GoResult.ok cred)
    (hw : (work tkn cred r1 p).IsError = true)
    (h1 : 100 ≤ (work tkn cred r1 p).HttpStatusCode)
    (h2 : (work tkn cred r1 p).HttpStatusCode ≤ 199)
    (h3 : (work tkn cred r1 p).HttpStatusCode ≠ 101) :
    NewAuthProtectedHandle env work r p =
      { trace :=
          [Event.headerSet "Content-Type" "application/json",
           Event.parseRequest r RS512 env.pubSet.head?,
           Event.validate tkn,
           Event.parseForm r,
           Event.getUserQueryCredentials tkn,
           Event.work tkn cred r1 p,
           Event.writeHeader (work tkn cred r1 p).HttpStatusCode,
           Event.encode (work tkn cred r1 p)]
        writer :=
          { header := [("Content-Type", "application/json")]
            informational := [(work tkn cred r1 p).HttpStatusCode]
            status := if jsonMarshals (work tkn cred r1 p).NewToken = true then some 200 else none
            body := if jsonMarshals (work tkn cred r1 p).NewToken = true
              then [work tkn cred r1 p] else [] }
        panicked := none } := by
  have hlo : ¬ (work tkn cred r1 p).HttpStatusCode < 100 := by omega
  have hhi : ¬ (work tkn cred r1 p).HttpStatusCode > 999 := by omega
  by_cases hm : jsonMarshals (work tkn cred r1 p).NewToken = true <;>
    simp [NewAuthProtectedHandle, hv, he, hf, hc, hw, hm, h1, h2, h3, hlo, hhi,
      writeHeaderThenEncode, ResponseWriter.WriteHeader, checkWriteHeaderCode,
      ResponseWriter.Encode, ResponseWriter.Write, ResponseWriter.SetHeader,
      ResponseWriter.fresh, bodyAllowedForStatus, StatusOK]

/-- The run when all four gates pass and the work response is an error with a
code WriteHeader sends as the status (101 or 200..999): the document is
written under that status when it marshals and the status allows a body. -/
theorem run_of_work_error_final (env : Env) (work : AuthProtectedHandleWork)
    (r : Request) (p : Params) (tkn : Token) (r1 : Request) (cred : UserQueryCredentials)
    (hv : env.ParseRequest r RS512 env.pubSet.head? = Except.ok tkn)
    (he : env.Validate tkn = none)
    (hf : env.ParseForm r = (r1, none))
    (hc : GetUserQueryCredentials tkn = GoResult.ok cred)
    (hw : (work tkn cred r1 p).IsError = true)
    (h1 : (work tkn cred r1 p).HttpStatusCode = 101 ∨ 200 ≤ (work tkn cred r1 p).HttpStatusCode)
    (h2 : (work tkn cred r1 p).HttpStatusCode ≤ 999) :
    NewAuthProtectedHandle env work r p =
      { trace :=
          [Event.headerSet "Content-Type" "application/json",
           Event.parseRequest r RS512 env.pubSet.head?,
           Event.validate tkn,
           Event.parseForm r,
           Event.getUserQueryCredentials tkn,
           Event.work tkn cred r1 p,
           Event.writeHeader (work tkn cred r1 p).HttpStatusCode,
           Event.encode (work tkn cred r1 p)]
        writer :=
          { header := [("Content-Type", "application/json")]
            informational := []
            status := some (work tkn cred r1 p).HttpStatusCode
            body := if jsonMarshals (work tkn cred r1 p).NewToken = true
                ∧ bodyAllowedForStatus (work tkn cred r1 p).HttpStatusCode = true
              then [work tkn cred r1 p] else [] }
        panicked := none } := by
  have hlo : ¬ (work tkn cred r1 p).HttpStatusCode < 100 := by omega
  have hhi : ¬ (work tkn cred r1 p).HttpStatusCode > 999 := by omega
  have hinf : ¬ (100 ≤ (work tkn cred r1 p).HttpStatusCode
      ∧ (work tkn cred r1 p).HttpStatusCode ≤ 199
      ∧ (work tkn cred r1 p).HttpStatusCode ≠ 101) := by omega
  by_cases hm : jsonMarshals (work tkn cred r1 p).NewToken = true <;>
    by_cases hb : bodyAllowedForStatus (work tkn cred r1 p).HttpStatusCode = true <;>
    simp [NewAuthProtectedHandle, hv, he, hf, hc, hw, hm, hb, hlo, hhi, hinf,
      writeHeaderThenEncode, ResponseWriter.WriteHeader, checkWriteHeaderCode,
      ResponseWriter.Encode, ResponseWriter.Write, ResponseWriter.SetHeader,
      ResponseWriter.fresh]

/-- The statuses that allow a body: all but 1xx, 204 and 304. -/
theorem bodyAllowedForStatus_iff (status : Int) :
    bodyAllowedForStatus status = true ↔
      ¬ (100 ≤ status ∧ status ≤ 199) ∧ status ≠ 204 ∧ status ≠ 304 := by
  unfold bodyAllowedForStatus
  split_ifs <;> simp_all

/-- Every run stops at one of the four gates or reaches the work function. -/
theorem run_cases (env : Env) (r : Request) :
    (∃ err, env.ParseRequest r RS512 env.pubSet.head? = Except.error err)
    ∨ (∃ tkn err, env.ParseRequest r RS512 env.pubSet.head? = Except.ok tkn
        ∧ env.Validate tkn = some err)
    ∨ (∃ tkn r1 err, env.ParseRequest r RS512 env.pubSet.head? = Except.ok tkn
        ∧ env.Validate tkn = none ∧ env.ParseForm r = (r1, some err))
    ∨ (∃ tkn r1 pv, env.ParseRequest r RS512 env.pubSet.head? = Except.ok tkn
        ∧ env.Validate tkn = none ∧ env.ParseForm r = (r1, none)
        ∧ GetUserQueryCredentials tkn = GoResult.panic pv)
    ∨ (∃ tkn r1 cred, env.ParseRequest r RS512 env.pubSet.head? = Except.ok tkn
        ∧ env.Validate tkn = none ∧ env.ParseForm r = (r1, none)
        ∧ GetUserQueryCredentials tkn = GoResult.ok cred) := by
  cases hv : env.ParseRequest r RS512 env.pubSet.head? with
  | error err => exact Or.inl ⟨err, rfl⟩
  | ok tkn =>
    cases he : env.Validate tkn with
    | some err => exact Or.inr (Or.inl ⟨tkn, err, rfl, he⟩)
    | none =>
      rcases hf : env.ParseForm r with ⟨r1, ferr⟩
      cases ferr with
      | some err => exact Or.inr (Or.inr (Or.inl ⟨tkn, r1, err, rfl, he, rfl⟩))
      | none =>
        cases hc : GetUserQueryCredentials tkn with
        | panic pv => exact Or.inr (Or.inr (Or.inr (Or.inl ⟨tkn, r1, pv, rfl, he, rfl, hc⟩)))
        | ok cred => exact Or.inr (Or.inr (Or.inr (Or.inr ⟨tkn, r1, cred, rfl, he, rfl, hc⟩)))

/-- A response built by a constructor that is not an error has code 200. -/
theorem built_success_code (env : Env) (resp : AuthProtectedHandleResponse)
    (h : BuiltByConstructors env resp) (hs : resp.IsError = false) :
    resp.HttpStatusCode = 200 := by
  rcases h with ⟨α, data, tkn, userMessage, rfl⟩ | ⟨tv, te, code, reason, userMessage, rfl⟩
  · unfold NewAuthProtectedHandleSuccessResponse at hs ⊢
    cases hg : env.GetNewToken tkn with
    | error e => simp [hg, NewAuthProtectedHandleErrorResponse] at hs
    | ok newTkn => simp [StatusOK]
  · simp [NewAuthProtectedHandleErrorResponse] at hs

/-! ## Theorems -/

/-- C3, as the code has it: if the phone claim is a non-empty string the
result is the phone credential; else if the phone claim is absent, nil or the
empty string and the email claim is a non-empty string, the result is the email
credential; if neither claim is a non-empty string the call panics, with the
"Shouldn't be here" message when both claims are absent, nil or empty.  A token
with phone "" and email "a@b" yields the email credential "a@b", and when
phone is a non-empty string the email claim has no influence on the result. -/
theorem credentials_precedence (tkn : Token) :
    (∀ ph, nonEmptyClaim tkn "phone" = some ph →
      GetUserQueryCredentials tkn = GoResult.ok { queryByKey := "phone", queryByValue := ph })
    ∧ (∀ em, absentOrEmpty (tkn.Get "phone").1 → nonEmptyClaim tkn "email" = some em →
      GetUserQueryCredentials tkn = GoResult.ok { queryByKey := "email", queryByValue := em })
    ∧ (nonEmptyClaim tkn "phone" = none → nonEmptyClaim tkn "email" = none →
      ∃ pv, GetUserQueryCredentials tkn = GoResult.panic pv)
    ∧ (absentOrEmpty (tkn.Get "phone").1 → absentOrEmpty (tkn.Get "email").1 →
      GetUserQueryCredentials tkn = GoResult.panic (PanicValue.message
        "Shouldn't be here! Neither phone nor email is available for querying the database in behalf of this user!"))
    ∧ GetUserQueryCredentials
        { claims := [("phone", GoValue.str ""), ("email", GoValue.str "a@b")] }
        = GoResult.ok { queryByKey := "email", queryByValue := "a@b" }
    ∧ (∀ (tkn2 : Token) (ph : String), nonEmptyClaim tkn "phone" = some ph →
        nonEmptyClaim tkn2 "phone" = some ph →
        GetUserQueryCredentials tkn2 = GetUserQueryCredentials tkn) := by
  have key : ∀ (t : Token) (ph : String), nonEmptyClaim t "phone" = some ph →
      GetUserQueryCredentials t = GoResult.ok { queryByKey := "phone", queryByValue := ph } := by
    intro t ph h
    unfold nonEmptyClaim at h
    unfold GetUserQueryCredentials Token.Get
    cases hl : t.claims.lookup "phone" with
    | none => simp [hl] at h
    | some v =>
      cases v <;> simp [hl] at h
      obtain ⟨hne, rfl⟩ := h
      simp [GoValue.assertString, hne]
  refine ⟨key tkn, ?_, ?_, ?_, by decide, ?_⟩
  · intro em hp h
    unfold nonEmptyClaim at h
    unfold GetUserQueryCredentials
    have hpe : ((tkn.Get "phone").1 != GoValue.nil && (tkn.Get "phone").1 != GoValue.str "")
        = false := by
      rcases hp with hp | hp <;> simp [hp]
    simp only [hpe]
    unfold Token.Get
    cases hl : tkn.claims.lookup "email" with
    | none => simp [hl] at h
    | some v =>
      cases v <;> simp [hl] at h
      obtain ⟨hne, rfl⟩ := h
      simp [GoValue.assertString, hne]
  · intro h1 h2
    unfold nonEmptyClaim at h1 h2
    unfold GetUserQueryCredentials Token.Get
    cases hl : tkn.claims.lookup "phone" with
    | none =>
      cases hl2 : tkn.claims.lookup "email" with
      | none => simp
      | some w =>
        cases w <;> simp [hl2] at h2 <;> simp [GoValue.assertString, h2]
    | some v =>
      cases v <;> simp [hl] at h1 <;> simp [GoValue.assertString, h1]
      all_goals
        cases hl2 : tkn.claims.lookup "email" with
        | none => simp
        | some w =>
          cases w <;> simp [hl2] at h2 <;> simp [GoValue.assertString, h2]
  · intro hp he
    unfold GetUserQueryCredentials
    have hpe : ((tkn.Get "phone").1 != GoValue.nil && (tkn.Get "phone").1 != GoValue.str "")
        = false := by
      rcases hp with hp | hp <;> simp [hp]
    have hee : ((tkn.Get "email").1 != GoValue.nil && (tkn.Get "email").1 != GoValue.str "")
        = false := by
      rcases he with he | he <;> simp [he]
    simp only [hpe, hee]
    simp
  · intro tkn2 ph h1 h2
    rw [key tkn ph h1, key tkn2 ph h2]

/-- Witness for C3: the theorem applied to a token with a phone claim, to one
with an empty phone and an email claim, and to one with neither. -/
theorem credentials_precedence_witness :
    GetUserQueryCredentials { claims := [("phone", GoValue.str "+15550101")] }
      = GoResult.ok { queryByKey := "phone", queryByValue := "+15550101" }
    ∧ GetUserQueryCredentials { claims := [("phone", GoValue.str ""), ("email", GoValue.str "c@d")] }
      = GoResult.ok { queryByKey := "email", queryByValue := "c@d" }
    ∧ ∃ pv, GetUserQueryCredentials { claims := [("sub", GoValue.str "nobody")] }
      = GoResult.panic pv :=
  ⟨(credentials_precedence { claims := [("phone", GoValue.str "+15550101")] }).1 "+15550101" rfl,
   (credentials_precedence
      { claims := [("phone", GoValue.str ""), ("email", GoValue.str "c@d")] }).2.1 "c@d"
      (Or.inr rfl) rfl,
   (credentials_precedence { claims := [("sub", GoValue.str "nobody")] }).2.2.1 rfl rfl⟩

/-- Counterexample to C3 as stated: a token whose phone claim is the number
15550101 and whose email claim is "a@b" has no non-empty phone string and a
non-empty email, yet the call returns neither the email credential nor any
other: it panics on the type assertion of the phone claim. -/
theorem credentials_precedence_counterexample :
    nonEmptyClaim { claims := [("phone", GoValue.number 15550101), ("email", GoValue.str "a@b")] }
      "phone" = none
    ∧ nonEmptyClaim { claims := [("phone", GoValue.number 15550101), ("email", GoValue.str "a@b")] }
      "email" = some "a@b"
    ∧ GetUserQueryCredentials
        { claims := [("phone", GoValue.number 15550101), ("email", GoValue.str "a@b")] }
      = GoResult.panic (PanicValue.typeAssertion (GoValue.number 15550101))
    ∧ GetUserQueryCredentials
        { claims := [("phone", GoValue.number 15550101), ("email", GoValue.str "a@b")] }
      ≠ GoResult.ok { queryByKey := "email", queryByValue := "a@b" } := by
  decide

/-- C4: the gates verify, validate, form-parse and derive-credential are
evaluated in that order and a failing gate ends the run: the gates evaluated
are exactly those up to and including the first failing one, and the work
function is invoked zero times then; when all four pass, the work function is
invoked exactly once, after the four gates, with the parsed token, the
credential GetUserQueryCredentials computes for that token, the request as
form parsing left it, and the route parameters. -/
theorem gates_in_order (env : Env) (work : AuthProtectedHandleWork) (r : Request) (p : Params) :
    (∀ err, env.ParseRequest r RS512 env.pubSet.head? = Except.error err →
      (NewAuthProtectedHandle env work r p).gateCalls =
        [Event.parseRequest r RS512 env.pubSet.head?]
      ∧ (NewAuthProtectedHandle env work r p).workCalls = [])
    ∧ (∀ tkn err, env.ParseRequest r RS512 env.pubSet.head? = Except.ok tkn →
      env.Validate tkn = some err →
      (NewAuthProtectedHandle env work r p).gateCalls =
        [Event.parseRequest r RS512 env.pubSet.head?, Event.validate tkn]
      ∧ (NewAuthProtectedHandle env work r p).workCalls = [])
    ∧ (∀ tkn r1 err, env.ParseRequest r RS512 env.pubSet.head? = Except.ok tkn →
      env.Validate tkn = none → env.ParseForm r = (r1, some err) →
      (NewAuthProtectedHandle env work r p).gateCalls =
        [Event.parseRequest r RS512 env.pubSet.head?, Event.validate tkn, Event.parseForm r]
      ∧ (NewAuthProtectedHandle env work r p).workCalls = [])
    ∧ (∀ tkn r1 pv, env.ParseRequest r RS512 env.pubSet.head? = Except.ok tkn →
      env.Validate tkn = none → env.ParseForm r = (r1, none) →
      GetUserQueryCredentials tkn = GoResult.panic pv →
      (NewAuthProtectedHandle env work r p).gateCalls =
        [Event.parseRequest r RS512 env.pubSet.head?, Event.validate tkn, Event.parseForm r,
         Event.getUserQueryCredentials tkn]
      ∧ (NewAuthProtectedHandle env work r p).workCalls = [])
    ∧ (∀ tkn r1 cred, env.ParseRequest r RS512 env.pubSet.head? = Except.ok tkn →
      env.Validate tkn = none → env.ParseForm r = (r1, none) →
      GetUserQueryCredentials tkn = GoResult.ok cred →
      (NewAuthProtectedHandle env work r p).gateCalls =
        [Event.parseRequest r RS512 env.pubSet.head?, Event.validate tkn, Event.parseForm r,
         Event.getUserQueryCredentials tkn, Event.work tkn cred r1 p]
      ∧ (NewAuthProtectedHandle env work r p).workCalls = [(tkn, cred, r1, p)]) := by
  refine ⟨?_, ?_, ?_, ?_, ?_⟩
  · intro err hv
    rw [run_of_verification_failure env work r p err hv]
    simp [Run.gateCalls, Run.workCalls]
  · intro tkn err hv he
    rw [run_of_validation_failure env work r p tkn err hv he]
    simp [Run.gateCalls, Run.workCalls]
  · intro tkn r1 err hv he hf
    rw [run_of_form_failure env work r p tkn r1 err hv he hf]
    simp [Run.gateCalls, Run.workCalls]
  · intro tkn r1 pv hv he hf hc
    rw [run_of_derive_panic env work r p tkn r1 pv hv he hf hc]
    simp [Run.gateCalls, Run.workCalls]
  · intro tkn r1 cred hv he hf hc
    cases hw : (work tkn cred r1 p).IsError with
    | false =>
      rw [run_of_work_success env work r p tkn r1 cred hv he hf hc hw]
      simp [Run.gateCalls, Run.workCalls]
    | true =>
      by_cases hinv : (work tkn cred r1 p).HttpStatusCode < 100
          ∨ (work tkn cred r1 p).HttpStatusCode > 999
      · rw [run_of_work_error_rejected env work r p tkn r1 cred hv he hf hc hw hinv]
        simp [Run.gateCalls, Run.workCalls]
      · by_cases hinfo : (work tkn cred r1 p).HttpStatusCode ≤ 199
            ∧ (work tkn cred r1 p).HttpStatusCode ≠ 101
        · rw [run_of_work_error_informational env work r p tkn r1 cred hv he hf hc hw
            (by omega) hinfo.1 hinfo.2]
          simp [Run.gateCalls, Run.workCalls]
        · rw [run_of_work_error_final env work r p tkn r1 cred hv he hf hc hw
            (by omega) (by omega)]
          simp [Run.gateCalls, Run.workCalls]

/-- Witness for C4: in the sample environment a request with a phone token
reaches the work function once, and one whose query does not parse stops at
the form gate. -/
theorem gates_in_order_witness :
    (NewAuthProtectedHandle sampleEnv sampleWork (sampleRequest "Bearer phone" "a=1") []).workCalls
      = [({ claims := [("phone", GoValue.str "+15550101")] },
          { queryByKey := "phone", queryByValue := "+15550101" },
          { header := [("Authorization", "Bearer phone")], rawQuery := "a=1", body := "",
            form := [("raw", "a=1")] },
          [])]
    ∧ (NewAuthProtectedHandle sampleEnv sampleWork (sampleRequest "Bearer phone" "a=%zz") []).workCalls
      = [] :=
  ⟨((gates_in_order sampleEnv sampleWork (sampleRequest "Bearer phone" "a=1") []).2.2.2.2
      { claims := [("phone", GoValue.str "+15550101")] }
      { header := [("Authorization", "Bearer phone")], rawQuery := "a=1", body := "",
        form := [("raw", "a=1")] }
      { queryByKey := "phone", queryByValue := "+15550101" } rfl rfl rfl rfl).2,
   ((gates_in_order sampleEnv sampleWork (sampleRequest "Bearer phone" "a=%zz") []).2.2.1
      { claims := [("phone", GoValue.str "+15550101")] }
      (sampleRequest "Bearer phone" "a=%zz")
      { ident := 20, msg := "invalid URL escape \"%zz\"" } rfl rfl rfl).2⟩

/-- C5: when the token refresher fails with error e, the success constructor
returns an error response, whatever data and userMessage are: IsError=true,
TokenValid=true, TokenExpired=true, NewToken=nil, HttpStatusCode=500, Reason =
the message of e, and the fixed "Failed to maintain your session" user message;
the result is the same for every other data and userMessage. -/
theorem refresh_failure_response {α : Type} (env : Env) (data : α) (tkn : Token)
    (userMessage : String) (e : GoError)
    (h : env.GetNewToken tkn = Except.error e) :
    NewAuthProtectedHandleSuccessResponse env data tkn userMessage =
      { IsError := true
        TokenValid := true
        TokenExpired := true
        NewToken := GoValue.nil
        HttpStatusCode := 500
        HttpStatusMessage := env.StatusText 500
        Reason := e.msg
        UserFriendlyMessage :=
          "Failed to maintain your session. Please contact us directly to resolve this issue." }
    ∧ ∀ (β : Type) (data2 : β) (userMessage2 : String),
        NewAuthProtectedHandleSuccessResponse env data2 tkn userMessage2 =
          NewAuthProtectedHandleSuccessResponse env data tkn userMessage := by
  constructor
  · simp [NewAuthProtectedHandleSuccessResponse, h, NewAuthProtectedHandleErrorResponse,
      StatusInternalServerError]
  · intro β data2 userMessage2
    simp [NewAuthProtectedHandleSuccessResponse, h]

/-- Witness for C5: a token the sample refresher refuses. -/
theorem refresh_failure_response_witness :
    NewAuthProtectedHandleSuccessResponse sampleEnv [1, 2, 3]
        { claims := [("phone", GoValue.str "+15550102"), ("norefresh", GoValue.bool true)] }
        "Welcome back" =
      { IsError := true
        TokenValid := true
        TokenExpired := true
        NewToken := GoValue.nil
        HttpStatusCode := 500
        HttpStatusMessage := "Internal Server Error"
        Reason := "failed to sign token"
        UserFriendlyMessage :=
          "Failed to maintain your session. Please contact us directly to resolve this issue." } :=
  (refresh_failure_response sampleEnv [1, 2, 3]
    { claims := [("phone", GoValue.str "+15550102"), ("norefresh", GoValue.bool true)] }
    "Welcome back" { ident := 30, msg := "failed to sign token" } rfl).1

/-- C6: every response the success constructor or the error constructor
returns satisfies the response invariants, for all arguments and for either
outcome of the token refresher: IsError=false implies TokenValid=true,
TokenExpired=false, NewToken a non-nil string and HttpStatusCode=200;
IsError=true implies NewToken=nil; HttpStatusMessage is the status text of
HttpStatusCode.  When the refresher returns a token, the success constructor
returns IsError=false with that token as the NewToken string. -/
theorem constructors_keep_invariants (env : Env) :
    (∀ (α : Type) (data : α) (tkn : Token) (userMessage : String),
      ResponseInvariant env (NewAuthProtectedHandleSuccessResponse env data tkn userMessage))
    ∧ (∀ (tokenValid tokenExpired : Bool) (code : Int) (reason userMessage : String),
      ResponseInvariant env
        (NewAuthProtectedHandleErrorResponse env tokenValid tokenExpired code reason userMessage))
    ∧ (∀ (α : Type) (data : α) (tkn : Token) (userMessage newTkn : String),
      env.GetNewToken tkn = Except.ok newTkn →
      (NewAuthProtectedHandleSuccessResponse env data tkn userMessage).IsError = false
      ∧ (NewAuthProtectedHandleSuccessResponse env data tkn userMessage).NewToken
          = GoValue.str newTkn) := by
  refine ⟨?_, ?_, ?_⟩
  · intro α data tkn userMessage
    unfold ResponseInvariant NewAuthProtectedHandleSuccessResponse
    cases h : env.GetNewToken tkn <;>
      simp [NewAuthProtectedHandleErrorResponse, StatusOK]
  · intro tokenValid tokenExpired code reason userMessage
    simp [ResponseInvariant, NewAuthProtectedHandleErrorResponse]
  · intro α data tkn userMessage newTkn h
    simp [NewAuthProtectedHandleSuccessResponse, h]

/-- Witness for C6: the success branch of the invariant at a token the sample
refresher accepts. -/
theorem constructors_keep_invariants_witness :
    (NewAuthProtectedHandleSuccessResponse sampleEnv ()
        { claims := [("phone", GoValue.str "+15550101")] } "Hello").IsError = false
    ∧ (NewAuthProtectedHandleSuccessResponse sampleEnv ()
        { claims := [("phone", GoValue.str "+15550101")] } "Hello").NewToken
        = GoValue.str "fresh.jwt.token"
    ∧ (NewAuthProtectedHandleSuccessResponse sampleEnv ()
        { claims := [("phone", GoValue.str "+15550101")] } "Hello").HttpStatusCode = 200 :=
  ⟨((constructors_keep_invariants sampleEnv).2.2 Unit ()
      { claims := [("phone", GoValue.str "+15550101")] } "Hello" "fresh.jwt.token" rfl).1,
   ((constructors_keep_invariants sampleEnv).2.2 Unit ()
      { claims := [("phone", GoValue.str "+15550101")] } "Hello" "fresh.jwt.token" rfl).2,
   (((constructors_keep_invariants sampleEnv).1 Unit ()
      { claims := [("phone", GoValue.str "+15550101")] } "Hello").1 rfl).2.2.2.2⟩

/-- C7, as the code has it: when the run reaches the work function and it
returns resp.  If resp.IsError is true the handler calls WriteHeader with
resp.HttpStatusCode before it encodes resp: a code outside 100..999 makes
WriteHeader panic, and the run ends there with no status and no body; a 1xx
code other than 101 is sent as an informational response and a body that
follows goes out under 200; code 101 is sent as the status and allows no body;
a code in 200..999 is sent as the status, and the body follows unless the code
is 204 or 304.  If resp.IsError is false the handler makes no WriteHeader call
and a body goes out under the default 200.  In every case the handler encodes
resp at most once, a body is written only if resp can be marshalled, and a
body written is resp itself, unmodified. -/
theorem work_response_written (env : Env) (work : AuthProtectedHandleWork) (r : Request)
    (p : Params) (tkn : Token) (r1 : Request) (cred : UserQueryCredentials)
    (resp : AuthProtectedHandleResponse) (run : Run)
    (hv : env.ParseRequest r RS512 env.pubSet.head? = Except.ok tkn)
    (he : env.Validate tkn = none)
    (hf : env.ParseForm r = (r1, none))
    (hc : GetUserQueryCredentials tkn = GoResult.ok cred)
    (hresp : work tkn cred r1 p = resp)
    (hrun : NewAuthProtectedHandle env work r p = run) :
    (resp.IsError = true →
      (resp.HttpStatusCode < 100 ∨ resp.HttpStatusCode > 999 →
        run.writerCalls = [Event.writeHeader resp.HttpStatusCode]
        ∧ run.panicked = some (PanicValue.invalidWriteHeaderCode resp.HttpStatusCode)
        ∧ run.writer.status = none
        ∧ run.bodies = [])
      ∧ (100 ≤ resp.HttpStatusCode → resp.HttpStatusCode ≤ 999 →
        run.writerCalls = [Event.writeHeader resp.HttpStatusCode, Event.encode resp]
        ∧ run.panicked = none)
      ∧ (100 ≤ resp.HttpStatusCode → resp.HttpStatusCode ≤ 199 → resp.HttpStatusCode ≠ 101 →
        run.writer.informational = [resp.HttpStatusCode]
        ∧ run.writer.status = (if jsonMarshals resp.NewToken = true then some 200 else none)
        ∧ run.bodies = (if jsonMarshals resp.NewToken = true then [resp] else []))
      ∧ (resp.HttpStatusCode = 101 →
        run.writer.status = some 101 ∧ run.bodies = [])
      ∧ (200 ≤ resp.HttpStatusCode → resp.HttpStatusCode ≤ 999 →
        run.writer.status = some resp.HttpStatusCode
        ∧ run.bodies =
          (if jsonMarshals resp.NewToken = true ∧ resp.HttpStatusCode ≠ 204
              ∧ resp.HttpStatusCode ≠ 304 then [resp] else [])))
    ∧ (resp.IsError = false →
      run.writerCalls = [Event.encode resp]
      ∧ run.writeHeaderCalls = []
      ∧ run.panicked = none
      ∧ run.writer.status = (if jsonMarshals resp.NewToken = true then some 200 else none)
      ∧ run.bodies = (if jsonMarshals resp.NewToken = true then [resp] else []))
    ∧ (run.bodies = [resp] ∨ run.bodies = [])
    ∧ (jsonMarshals resp.NewToken = false → run.bodies = []) := by
  subst hresp
  subst hrun
  cases hw : (work tkn cred r1 p).IsError with
  | false =>
    rw [run_of_work_success env work r p tkn r1 cred hv he hf hc hw]
    by_cases hm : jsonMarshals (work tkn cred r1 p).NewToken = true <;>
      simp [Run.writerCalls, Run.writeHeaderCalls, Run.bodies, hm]
  | true =>
    by_cases hinv : (work tkn cred r1 p).HttpStatusCode < 100
        ∨ (work tkn cred r1 p).HttpStatusCode > 999
    · rw [run_of_work_error_rejected env work r p tkn r1 cred hv he hf hc hw hinv]
      simp [Run.writerCalls, Run.bodies, hinv]
      omega
    · by_cases hinfo : (work tkn cred r1 p).HttpStatusCode ≤ 199
          ∧ (work tkn cred r1 p).HttpStatusCode ≠ 101
      · rw [run_of_work_error_informational env work r p tkn r1 cred hv he hf hc hw
          (by omega) hinfo.1 hinfo.2]
        by_cases hm : jsonMarshals (work tkn cred r1 p).NewToken = true <;>
          simp [Run.writerCalls, Run.bodies, hm, hinv, hinfo] <;> omega
      · rw [run_of_work_error_final env work r p tkn r1 cred hv he hf hc hw
          (by omega) (by omega)]
        by_cases hm : jsonMarshals (work tkn cred r1 p).NewToken = true <;>
          by_cases h101 : (work tkn cred r1 p).HttpStatusCode = 101 <;>
          by_cases h204 : (work tkn cred r1 p).HttpStatusCode = 204 <;>
          by_cases h304 : (work tkn cred r1 p).HttpStatusCode = 304 <;>
          simp [Run.writerCalls, Run.bodies, hm, hinv, h101, h204, h304,
            bodyAllowedForStatus] <;> omega

/-- Witness for C7: in the sample environment the work response for a phone
token is a success, written under 200 with no WriteHeader call; for a token the
refresher refuses it is an error with code 500, which is set before the body. -/
theorem work_response_written_witness :
    (NewAuthProtectedHandle sampleEnv sampleWork (sampleRequest "Bearer phone" "") []).writeHeaderCalls
      = []
    ∧ (NewAuthProtectedHandle sampleEnv sampleWork (sampleRequest "Bearer phone" "") []).writer.status
      = some 200
    ∧ (NewAuthProtectedHandle sampleEnv sampleWork (sampleRequest "Bearer stale" "") []).writer.status
      = some 500 :=
  ⟨((work_response_written sampleEnv sampleWork (sampleRequest "Bearer phone" "") []
      { claims := [("phone", GoValue.str "+15550101")] }
      { header := [("Authorization", "Bearer phone")], rawQuery := "", body := "",
        form := [("raw", "")] }
      { queryByKey := "phone", queryByValue := "+15550101" } _ _
      rfl rfl rfl rfl rfl rfl).2.1 rfl).2.1,
   ((work_response_written sampleEnv sampleWork (sampleRequest "Bearer phone" "") []
      { claims := [("phone", GoValue.str "+15550101")] }
      { header := [("Authorization", "Bearer phone")], rawQuery := "", body := "",
        form := [("raw", "")] }
      { queryByKey := "phone", queryByValue := "+15550101" } _ _
      rfl rfl rfl rfl rfl rfl).2.1 rfl).2.2.2.1,
   (((work_response_written sampleEnv sampleWork (sampleRequest "Bearer stale" "") []
      { claims := [("phone", GoValue.str "+15550102"), ("norefresh", GoValue.bool true)] }
      { header := [("Authorization", "Bearer stale")], rawQuery := "", body := "",
        form := [("raw", "")] }
      { queryByKey := "phone", queryByValue := "+15550102" } _ _
      rfl rfl rfl rfl rfl rfl).1 rfl).2.2.2.2 (by decide) (by decide)).1⟩

/-- Counterexample to C7 as stated: in the sample environment, a work
function that returns an error response with code 0 makes WriteHeader panic, so
no body is written; and for a work function whose success response holds a
channel in NewToken the one Encode call writes nothing. -/
theorem work_response_written_counterexample :
    ((NewAuthProtectedHandle sampleEnv sampleWorkCodeZero
        (sampleRequest "Bearer phone" "") []).writeHeaderCalls = [0]
      ∧ (NewAuthProtectedHandle sampleEnv sampleWorkCodeZero
        (sampleRequest "Bearer phone" "") []).panicked
        = some (PanicValue.invalidWriteHeaderCode 0)
      ∧ (NewAuthProtectedHandle sampleEnv sampleWorkCodeZero
        (sampleRequest "Bearer phone" "") []).writer.status = none
      ∧ (NewAuthProtectedHandle sampleEnv sampleWorkCodeZero
        (sampleRequest "Bearer phone" "") []).bodies = [])
    ∧ ((NewAuthProtectedHandle sampleEnv sampleWorkChannel
        (sampleRequest "Bearer phone" "") []).workCalls.length = 1
      ∧ (NewAuthProtectedHandle sampleEnv sampleWorkChannel
        (sampleRequest "Bearer phone" "") []).panicked = none
      ∧ (NewAuthProtectedHandle sampleEnv sampleWorkChannel
        (sampleRequest "Bearer phone" "") []).bodies = []) := by
  decide

/-- C8, as the code has it: every run makes at most one WriteHeader call, none
after an Encode call, and writes at most one body.  A run that stops at the
verify, validate or form-parse gate sets exactly one status (401, 401, 500) and
writes exactly one body.  A run in which GetUserQueryCredentials panics makes
no WriteHeader call and writes no status and no body.  A run that reaches the
work function writes exactly one body if and only if the response can be
marshalled and either IsError is false or HttpStatusCode is in 100..999 and is
not 101, 204 or 304; it panics if and only if IsError is true and the code is
outside 100..999.  A run that panics leaves no status and no body, and a run
that writes a body has sent a status. -/
theorem one_status_one_body (env : Env) (work : AuthProtectedHandleWork) (r : Request)
    (p : Params) (run : Run)
    (hrun : NewAuthProtectedHandle env work r p = run) :
    run.writeHeaderCalls.length ≤ 1
    ∧ writeHeaderAfterBody run.trace = false
    ∧ run.bodies.length ≤ 1
    ∧ (∀ err, env.ParseRequest r RS512 env.pubSet.head? = Except.error err →
        run.writeHeaderCalls = [401] ∧ run.writer.status = some 401
        ∧ run.bodies.length = 1 ∧ run.panicked = none)
    ∧ (∀ tkn err, env.ParseRequest r RS512 env.pubSet.head? = Except.ok tkn →
        env.Validate tkn = some err →
        run.writeHeaderCalls = [401] ∧ run.writer.status = some 401
        ∧ run.bodies.length = 1 ∧ run.panicked = none)
    ∧ (∀ tkn r1 err, env.ParseRequest r RS512 env.pubSet.head? = Except.ok tkn →
        env.Validate tkn = none → env.ParseForm r = (r1, some err) →
        run.writeHeaderCalls = [500] ∧ run.writer.status = some 500
        ∧ run.bodies.length = 1 ∧ run.panicked = none)
    ∧ (∀ tkn r1 pv, env.ParseRequest r RS512 env.pubSet.head? = Except.ok tkn →
        env.Validate tkn = none → env.ParseForm r = (r1, none) →
        GetUserQueryCredentials tkn = GoResult.panic pv →
        run.writeHeaderCalls = [] ∧ run.writer.status = none
        ∧ run.bodies = [] ∧ run.panicked = some pv)
    ∧ (∀ tkn r1 cred resp, env.ParseRequest r RS512 env.pubSet.head? = Except.ok tkn →
        env.Validate tkn = none → env.ParseForm r = (r1, none) →
        GetUserQueryCredentials tkn = GoResult.ok cred →
        work tkn cred r1 p = resp →
        (run.bodies.length = 1 ↔
          jsonMarshals resp.NewToken = true
          ∧ (resp.IsError = false
            ∨ (100 ≤ resp.HttpStatusCode ∧ resp.HttpStatusCode ≤ 999
              ∧ resp.HttpStatusCode ≠ 101 ∧ resp.HttpStatusCode ≠ 204
              ∧ resp.HttpStatusCode ≠ 304)))
        ∧ (∀ pv, run.panicked = some pv ↔
          resp.IsError = true
          ∧ (resp.HttpStatusCode < 100 ∨ resp.HttpStatusCode > 999)
          ∧ pv = PanicValue.invalidWriteHeaderCode resp.HttpStatusCode))
    ∧ (run.panicked ≠ none → run.writer.status = none ∧ run.bodies = [])
    ∧ (run.bodies.length = 1 → run.writer.status ≠ none) := by
  subst hrun
  have general :
      (NewAuthProtectedHandle env work r p).writeHeaderCalls.length ≤ 1
      ∧ writeHeaderAfterBody (NewAuthProtectedHandle env work r p).trace = false
      ∧ (NewAuthProtectedHandle env work r p).bodies.length ≤ 1
      ∧ ((NewAuthProtectedHandle env work r p).panicked ≠ none →
          (NewAuthProtectedHandle env work r p).writer.status = none
          ∧ (NewAuthProtectedHandle env work r p).bodies = [])
      ∧ ((NewAuthProtectedHandle env work r p).bodies.length = 1 →
          (NewAuthProtectedHandle env work r p).writer.status ≠ none) := by
    rcases run_cases env r with ⟨err, hv⟩ | ⟨tkn, err, hv, he⟩ | ⟨tkn, r1, err, hv, he, hf⟩
      | ⟨tkn, r1, pv, hv, he, hf, hc⟩ | ⟨tkn, r1, cred, hv, he, hf, hc⟩
    · rw [run_of_verification_failure env work r p err hv]
      simp [Run.writeHeaderCalls, Run.bodies, writeHeaderAfterBody]
    · rw [run_of_validation_failure env work r p tkn err hv he]
      simp [Run.writeHeaderCalls, Run.bodies, writeHeaderAfterBody]
    · rw [run_of_form_failure env work r p tkn r1 err hv he hf]
      simp [Run.writeHeaderCalls, Run.bodies, writeHeaderAfterBody]
    · rw [run_of_derive_panic env work r p tkn r1 pv hv he hf hc]
      simp [Run.writeHeaderCalls, Run.bodies, writeHeaderAfterBody]
    · cases hw : (work tkn cred r1 p).IsError with
      | false =>
        rw [run_of_work_success env work r p tkn r1 cred hv he hf hc hw]
        by_cases hm : jsonMarshals (work tkn cred r1 p).NewToken = true <;>
          simp [Run.writeHeaderCalls, Run.bodies, writeHeaderAfterBody, hm]
      | true =>
        by_cases hinv : (work tkn cred r1 p).HttpStatusCode < 100
            ∨ (work tkn cred r1 p).HttpStatusCode > 999
        · rw [run_of_work_error_rejected env work r p tkn r1 cred hv he hf hc hw hinv]
          simp [Run.writeHeaderCalls, Run.bodies, writeHeaderAfterBody]
        · by_cases hinfo : (work tkn cred r1 p).HttpStatusCode ≤ 199
              ∧ (work tkn cred r1 p).HttpStatusCode ≠ 101
          · rw [run_of_work_error_informational env work r p tkn r1 cred hv he hf hc hw
              (by omega) hinfo.1 hinfo.2]
            by_cases hm : jsonMarshals (work tkn cred r1 p).NewToken = true <;>
              simp [Run.writeHeaderCalls, Run.bodies, writeHeaderAfterBody, hm]
          · rw [run_of_work_error_final env work r p tkn r1 cred hv he hf hc hw
              (by omega) (by omega)]
            by_cases hm : jsonMarshals (work tkn cred r1 p).NewToken = true <;>
              by_cases hb : bodyAllowedForStatus (work tkn cred r1 p).HttpStatusCode = true <;>
              simp [Run.writeHeaderCalls, Run.bodies, writeHeaderAfterBody, hm, hb]
  refine ⟨general.1, general.2.1, general.2.2.1, ?_, ?_, ?_, ?_, ?_, general.2.2.2.1,
    general.2.2.2.2⟩
  · intro err hv
    rw [run_of_verification_failure env work r p err hv]
    simp [Run.writeHeaderCalls, Run.bodies]
  · intro tkn err hv he
    rw [run_of_validation_failure env work r p tkn err hv he]
    simp [Run.writeHeaderCalls, Run.bodies]
  · intro tkn r1 err hv he hf
    rw [run_of_form_failure env work r p tkn r1 err hv he hf]
    simp [Run.writeHeaderCalls, Run.bodies]
  · intro tkn r1 pv hv he hf hc
    rw [run_of_derive_panic env work r p tkn r1 pv hv he hf hc]
    simp [Run.writeHeaderCalls, Run.bodies]
  · intro tkn r1 cred resp hv he hf hc hresp
    subst hresp
    clear general
    cases hw : (work tkn cred r1 p).IsError with
    | false =>
      rw [run_of_work_success env work r p tkn r1 cred hv he hf hc hw]
      by_cases hm : jsonMarshals (work tkn cred r1 p).NewToken = true <;>
        simp [Run.bodies, hm]
    | true =>
      by_cases hinv : (work tkn cred r1 p).HttpStatusCode < 100
          ∨ (work tkn cred r1 p).HttpStatusCode > 999
      · rw [run_of_work_error_rejected env work r p tkn r1 cred hv he hf hc hw hinv]
        refine ⟨?_, ?_⟩
        · simp only [Run.bodies, List.length_nil]
          constructor
          · intro h
            omega
          · rintro ⟨_, h⟩
            simp at h
            omega
        · intro pv
          simp only [Option.some.injEq]
          constructor
          · intro h
            exact ⟨trivial, hinv, h.symm⟩
          · intro h
            exact h.2.2.symm
      · have hlo : 100 ≤ (work tkn cred r1 p).HttpStatusCode := by omega
        have hhi : (work tkn cred r1 p).HttpStatusCode ≤ 999 := by omega
        have hno : ¬ ((work tkn cred r1 p).HttpStatusCode < 100
            ∨ 999 < (work tkn cred r1 p).HttpStatusCode) := by omega
        by_cases hinfo : (work tkn cred r1 p).HttpStatusCode ≤ 199
            ∧ (work tkn cred r1 p).HttpStatusCode ≠ 101
        · rw [run_of_work_error_informational env work r p tkn r1 cred hv he hf hc hw
            hlo hinfo.1 hinfo.2]
          have h204 : (work tkn cred r1 p).HttpStatusCode ≠ 204 := by omega
          have h304 : (work tkn cred r1 p).HttpStatusCode ≠ 304 := by omega
          by_cases hm : jsonMarshals (work tkn cred r1 p).NewToken = true <;>
            simp [Run.bodies, hm, hlo, hhi, hno, hinfo.2, h204, h304]
        · rw [run_of_work_error_final env work r p tkn r1 cred hv he hf hc hw
            (by omega) hhi]
          have hbi := bodyAllowedForStatus_iff (work tkn cred r1 p).HttpStatusCode
          by_cases hb : bodyAllowedForStatus (work tkn cred r1 p).HttpStatusCode = true
          · have hP := hbi.1 hb
            by_cases hm : jsonMarshals (work tkn cred r1 p).NewToken = true
            · simp [Run.bodies, hm, hb, hlo, hhi, hno]
              omega
            · simp [Run.bodies, hm, hb, hlo, hhi, hno]
          · have hP := mt hbi.2 hb
            by_cases hm : jsonMarshals (work tkn cred r1 p).NewToken = true
            · simp [Run.bodies, hm, hb, hlo, hhi, hno]
              omega
            · simp [Run.bodies, hm, hb, hlo, hhi, hno]

/-- Witness for C8: in the sample environment a request without a token gets
one status, 401, and one body. -/
theorem one_status_one_body_witness :
    (NewAuthProtectedHandle sampleEnv sampleWork (sampleRequest "" "") []).writeHeaderCalls
      = [401]
    ∧ (NewAuthProtectedHandle sampleEnv sampleWork (sampleRequest "" "") []).writer.status
      = some 401
    ∧ (NewAuthProtectedHandle sampleEnv sampleWork (sampleRequest "" "") []).bodies.length = 1
    ∧ (NewAuthProtectedHandle sampleEnv sampleWork (sampleRequest "" "") []).panicked = none :=
  (one_status_one_body sampleEnv sampleWork (sampleRequest "" "") [] _ rfl).2.2.2.1
    { ident := 1, msg := "failed to find token in any location of the request" } rfl

/-- Counterexample to C8 as stated: in the sample environment a request whose
valid token has neither a phone nor an email claim ends in a panic, with no
WriteHeader call, no status and no body on the response writer. -/
theorem one_status_one_body_counterexample :
    (NewAuthProtectedHandle sampleEnv sampleWork (sampleRequest "Bearer anonymous" "") []).bodies
      = []
    ∧ (NewAuthProtectedHandle sampleEnv sampleWork
        (sampleRequest "Bearer anonymous" "") []).writeHeaderCalls = []
    ∧ (NewAuthProtectedHandle sampleEnv sampleWork
        (sampleRequest "Bearer anonymous" "") []).writer.status = none
    ∧ (NewAuthProtectedHandle sampleEnv sampleWork
        (sampleRequest "Bearer anonymous" "") []).panicked
      = some (PanicValue.message
        "Shouldn't be here! Neither phone nor email is available for querying the database in behalf of this user!") := by
  decide

/-- C9, as the code has it: a verification failure and a validation failure
each append exactly one line to the log, carrying the message of the underlying
error, and write exactly one JSON body; a form-parse failure writes exactly one
JSON body, whose Reason carries the message of the underlying error; when the
work function answers through the success constructor and the refresher fails,
the handler writes exactly one JSON body, whose Reason is the message of the
refresh error, and appends no line to the log.  The Reason of a response is
logged by its Error method, one line per call. -/
theorem failure_log_and_body (env : Env) (work : AuthProtectedHandleWork) (r : Request)
    (p : Params) :
    (∀ err, env.ParseRequest r RS512 env.pubSet.head? = Except.error err →
      (NewAuthProtectedHandle env work r p).logLines
        = ["Token verification failed: " ++ err.msg ++ "\n"]
      ∧ (NewAuthProtectedHandle env work r p).bodies.length = 1)
    ∧ (∀ tkn err, env.ParseRequest r RS512 env.pubSet.head? = Except.ok tkn →
      env.Validate tkn = some err →
      (NewAuthProtectedHandle env work r p).logLines
        = ["Token validation failed: " ++ err.msg ++ "\n"]
      ∧ (NewAuthProtectedHandle env work r p).bodies.length = 1)
    ∧ (∀ tkn r1 err, env.ParseRequest r RS512 env.pubSet.head? = Except.ok tkn →
      env.Validate tkn = none → env.ParseForm r = (r1, some err) →
      (NewAuthProtectedHandle env work r p).bodies.length = 1
      ∧ (NewAuthProtectedHandle env work r p).bodies.map (fun resp => resp.Reason)
        = ["Failed to parse form parameters: " ++ err.msg])
    ∧ (∀ tkn r1 cred (α : Type) (data : α) (tkn2 : Token) (userMessage : String) (e : GoError),
      env.ParseRequest r RS512 env.pubSet.head? = Except.ok tkn →
      env.Validate tkn = none → env.ParseForm r = (r1, none) →
      GetUserQueryCredentials tkn = GoResult.ok cred →
      work tkn cred r1 p = NewAuthProtectedHandleSuccessResponse env data tkn2 userMessage →
      env.GetNewToken tkn2 = Except.error e →
      (NewAuthProtectedHandle env work r p).bodies.length = 1
      ∧ (NewAuthProtectedHandle env work r p).bodies.map (fun resp => resp.Reason) = [e.msg]
      ∧ (NewAuthProtectedHandle env work r p).logLines = [])
    ∧ (∀ (resp : AuthProtectedHandleResponse) (log : List String),
      (resp.Error log).2 = log ++ [resp.Reason ++ "\n"]) := by
  refine ⟨?_, ?_, ?_, ?_, ?_⟩
  · intro err hv
    rw [run_of_verification_failure env work r p err hv]
    simp [Run.logLines, Run.bodies]
  · intro tkn err hv he
    rw [run_of_validation_failure env work r p tkn err hv he]
    simp [Run.logLines, Run.bodies]
  · intro tkn r1 err hv he hf
    rw [run_of_form_failure env work r p tkn r1 err hv he hf]
    simp [Run.bodies, NewAuthProtectedHandleErrorResponse]
  · intro tkn r1 cred α data tkn2 userMessage e hv he hf hc hw hg
    have hresp : work tkn cred r1 p =
        NewAuthProtectedHandleErrorResponse env true true 500 e.msg
          "Failed to maintain your session. Please contact us directly to resolve this issue." := by
      rw [hw]
      simp [NewAuthProtectedHandleSuccessResponse, hg, StatusInternalServerError]
    have herr : (work tkn cred r1 p).IsError = true := by
      rw [hresp]
      rfl
    have hcode : (work tkn cred r1 p).HttpStatusCode = 500 := by
      rw [hresp]
      rfl
    rw [run_of_work_error_final env work r p tkn r1 cred hv he hf hc herr
      (by omega) (by omega)]
    simp [Run.logLines, Run.bodies, hresp, NewAuthProtectedHandleErrorResponse, jsonMarshals,
      bodyAllowedForStatus]
  · intro resp log
    rfl

/-- Witness for C9: in the sample environment a request without a token
leaves one log line and one body. -/
theorem failure_log_and_body_witness :
    (NewAuthProtectedHandle sampleEnv sampleWork (sampleRequest "" "") []).logLines
      = ["Token verification failed: failed to find token in any location of the request\n"]
    ∧ (NewAuthProtectedHandle sampleEnv sampleWork (sampleRequest "" "") []).bodies.length = 1 :=
  (failure_log_and_body sampleEnv sampleWork (sampleRequest "" "") []).1
    { ident := 1, msg := "failed to find token in any location of the request" } rfl

/-- Counterexample to C9 as stated: in the sample environment a form-parse
failure, and a refresh failure on the success path, each write one body and
append no line to the log. -/
theorem failure_log_and_body_counterexample :
    (NewAuthProtectedHandle sampleEnv sampleWork (sampleRequest "Bearer phone" "a=%zz") []).logLines
      = []
    ∧ (NewAuthProtectedHandle sampleEnv sampleWork
        (sampleRequest "Bearer phone" "a=%zz") []).bodies.map (fun resp => resp.Reason)
      = ["Failed to parse form parameters: invalid URL escape \"%zz\""]
    ∧ (NewAuthProtectedHandle sampleEnv sampleWork (sampleRequest "Bearer stale" "") []).logLines
      = []
    ∧ (NewAuthProtectedHandle sampleEnv sampleWork
        (sampleRequest "Bearer stale" "") []).bodies.map (fun resp => resp.Reason)
      = ["failed to sign token"] := by
  decide

/-- C10, as the code has it: if the work function only returns responses built
by the two constructors, the status sent on the response writer equals the
HttpStatusCode field of every body the handler writes, unless that code is a
1xx code: 401 when verification or validation fails, 500 when form parsing
fails, and 200 when the body has IsError=false.  A body whose code is a 1xx
code goes out under status 200, after that code was sent as an informational
response. -/
theorem status_matches_body (env : Env) (work : AuthProtectedHandleWork) (r : Request)
    (p : Params) (run : Run)
    (hwork : ∀ tkn cred r1 p1, BuiltByConstructors env (work tkn cred r1 p1))
    (hrun : NewAuthProtectedHandle env work r p = run) :
    (∀ resp ∈ run.bodies, ¬ (100 ≤ resp.HttpStatusCode ∧ resp.HttpStatusCode ≤ 199) →
      run.writer.status = some resp.HttpStatusCode)
    ∧ (∀ resp ∈ run.bodies, 100 ≤ resp.HttpStatusCode → resp.HttpStatusCode ≤ 199 →
      run.writer.status = some 200 ∧ run.writer.informational = [resp.HttpStatusCode])
    ∧ (∀ err, env.ParseRequest r RS512 env.pubSet.head? = Except.error err →
      run.writer.status = some 401
      ∧ run.bodies.map (fun resp => resp.HttpStatusCode) = [401])
    ∧ (∀ tkn err, env.ParseRequest r RS512 env.pubSet.head? = Except.ok tkn →
      env.Validate tkn = some err →
      run.writer.status = some 401
      ∧ run.bodies.map (fun resp => resp.HttpStatusCode) = [401])
    ∧ (∀ tkn r1 err, env.ParseRequest r RS512 env.pubSet.head? = Except.ok tkn →
      env.Validate tkn = none → env.ParseForm r = (r1, some err) →
      run.writer.status = some 500
      ∧ run.bodies.map (fun resp => resp.HttpStatusCode) = [500])
    ∧ (∀ resp ∈ run.bodies, resp.IsError = false →
      run.writer.status = some 200 ∧ resp.HttpStatusCode = 200) := by
  subst hrun
  have hall :
      (∀ resp ∈ (NewAuthProtectedHandle env work r p).bodies,
        ¬ (100 ≤ resp.HttpStatusCode ∧ resp.HttpStatusCode ≤ 199) →
        (NewAuthProtectedHandle env work r p).writer.status = some resp.HttpStatusCode)
      ∧ (∀ resp ∈ (NewAuthProtectedHandle env work r p).bodies,
        100 ≤ resp.HttpStatusCode → resp.HttpStatusCode ≤ 199 →
        (NewAuthProtectedHandle env work r p).writer.status = some 200
        ∧ (NewAuthProtectedHandle env work r p).writer.informational = [resp.HttpStatusCode])
      ∧ (∀ resp ∈ (NewAuthProtectedHandle env work r p).bodies, resp.IsError = false →
        resp.HttpStatusCode = 200) := by
    rcases run_cases env r with ⟨err, hv⟩ | ⟨tkn, err, hv, he⟩ | ⟨tkn, r1, err, hv, he, hf⟩
      | ⟨tkn, r1, pv, hv, he, hf, hc⟩ | ⟨tkn, r1, cred, hv, he, hf, hc⟩
    · rw [run_of_verification_failure env work r p err hv]
      simp [Run.bodies, NewAuthProtectedHandleErrorResponse]
    · rw [run_of_validation_failure env work r p tkn err hv he]
      simp [Run.bodies, NewAuthProtectedHandleErrorResponse]
    · rw [run_of_form_failure env work r p tkn r1 err hv he hf]
      simp [Run.bodies, NewAuthProtectedHandleErrorResponse]
    · rw [run_of_derive_panic env work r p tkn r1 pv hv he hf hc]
      simp [Run.bodies]
    · have hcode := built_success_code env (work tkn cred r1 p) (hwork tkn cred r1 p)
      cases hw : (work tkn cred r1 p).IsError with
      | false =>
        have h200 := hcode hw
        rw [run_of_work_success env work r p tkn r1 cred hv he hf hc hw]
        by_cases hm : jsonMarshals (work tkn cred r1 p).NewToken = true <;>
          simp [Run.bodies, hm, h200]
      | true =>
        by_cases hinv : (work tkn cred r1 p).HttpStatusCode < 100
            ∨ (work tkn cred r1 p).HttpStatusCode > 999
        · rw [run_of_work_error_rejected env work r p tkn r1 cred hv he hf hc hw hinv]
          simp [Run.bodies]
        · by_cases hinfo : (work tkn cred r1 p).HttpStatusCode ≤ 199
              ∧ (work tkn cred r1 p).HttpStatusCode ≠ 101
          · have hlo : 100 ≤ (work tkn cred r1 p).HttpStatusCode := by omega
            rw [run_of_work_error_informational env work r p tkn r1 cred hv he hf hc hw
              hlo hinfo.1 hinfo.2]
            by_cases hm : jsonMarshals (work tkn cred r1 p).NewToken = true <;>
              simp [Run.bodies, hm, hw, hlo, hinfo.1]
          · have hbi := bodyAllowedForStatus_iff (work tkn cred r1 p).HttpStatusCode
            rw [run_of_work_error_final env work r p tkn r1 cred hv he hf hc hw
              (by omega) (by omega)]
            by_cases hb : bodyAllowedForStatus (work tkn cred r1 p).HttpStatusCode = true
            · have hP := hbi.1 hb
              by_cases hm : jsonMarshals (work tkn cred r1 p).NewToken = true
              · simp [Run.bodies, hm, hb, hw]
                omega
              · simp [Run.bodies, hm]
            · simp [Run.bodies, hb]
  refine ⟨hall.1, hall.2.1, ?_, ?_, ?_, ?_⟩
  · intro err hv
    rw [run_of_verification_failure env work r p err hv]
    simp [Run.bodies, NewAuthProtectedHandleErrorResponse]
  · intro tkn err hv he
    rw [run_of_validation_failure env work r p tkn err hv he]
    simp [Run.bodies, NewAuthProtectedHandleErrorResponse]
  · intro tkn r1 err hv he hf
    rw [run_of_form_failure env work r p tkn r1 err hv he hf]
    simp [Run.bodies, NewAuthProtectedHandleErrorResponse]
  · intro resp hmem hs
    have h200 := hall.2.2 resp hmem hs
    refine ⟨?_, h200⟩
    have h := hall.1 resp hmem (by omega)
    rw [h, h200]

/-- Witness for C10: the sample work function only answers through the success
constructor; for a token the refresher refuses, the body and the status sent
are both 500, and for a phone token both are 200. -/
theorem status_matches_body_witness :
    (NewAuthProtectedHandle sampleEnv sampleWork (sampleRequest "Bearer stale" "") []).writer.status
      = some 500
    ∧ (NewAuthProtectedHandle sampleEnv sampleWork (sampleRequest "Bearer phone" "") []).writer.status
      = some 200 :=
  ⟨(status_matches_body sampleEnv sampleWork (sampleRequest "Bearer stale" "") [] _
      (fun tkn cred _ _ => Or.inl ⟨Unit, (), tkn, "Hello " ++ cred.queryByValue, rfl⟩) rfl).1
      { IsError := true
        TokenValid := true
        TokenExpired := true
        NewToken := GoValue.nil
        HttpStatusCode := 500
        HttpStatusMessage := "Internal Server Error"
        Reason := "failed to sign token"
        UserFriendlyMessage :=
          "Failed to maintain your session. Please contact us directly to resolve this issue." }
      (by decide) (by decide),
   ((status_matches_body sampleEnv sampleWork (sampleRequest "Bearer phone" "") [] _
      (fun tkn cred _ _ => Or.inl ⟨Unit, (), tkn, "Hello " ++ cred.queryByValue, rfl⟩)
      rfl).2.2.2.2.2
      { IsError := false
        TokenValid := true
        TokenExpired := false
        NewToken := GoValue.str "fresh.jwt.token"
        HttpStatusCode := 200
        HttpStatusMessage := "OK"
        Reason := ""
        UserFriendlyMessage := "Hello +15550101" }
      (by decide) rfl).1⟩

/-- Counterexample to C10 as stated: in the sample environment a work function
that answers through the error constructor with code 103 gets its body written
with HttpStatusCode 103 while the status sent is 200, 103 having gone out as an
informational response. -/
theorem status_matches_body_counterexample :
    (∀ tkn cred r1 p1, BuiltByConstructors sampleEnv (sampleWorkEarlyHints tkn cred r1 p1))
    ∧ (NewAuthProtectedHandle sampleEnv sampleWorkEarlyHints
        (sampleRequest "Bearer phone" "") []).bodies.map (fun resp => resp.HttpStatusCode)
      = [103]
    ∧ (NewAuthProtectedHandle sampleEnv sampleWorkEarlyHints
        (sampleRequest "Bearer phone" "") []).writer.status = some 200
    ∧ (NewAuthProtectedHandle sampleEnv sampleWorkEarlyHints
        (sampleRequest "Bearer phone" "") []).writer.informational = [103] :=
  ⟨fun _ _ _ _ => Or.inr ⟨true, false, 103, "still working", "Please wait.", rfl⟩,
   by decide, by decide, by decide⟩

end GraphBasedServer
